import Mathlib

/-!
Shallow embedding of `src/app.py` (product-media-count): a script that reads
product source identifiers from a CSV, fetches media records per identifier,
extracts product information, and appends rows to a resumable output CSV.

JSON objects reaching the script are modelled as Lean structures whose fields
are `Option`-valued (a `none` field models an absent or `null` JSON key).
Python truthiness (`x or y`, `if not x`, `if d.get("k")`) is modelled
explicitly: `none`, `some 0`, `some ""` and empty containers are falsy.
The HTTP transport is modelled by passing the response value (or `none` for a
transport error) as an argument; everything downstream of the transport is
embedded from the source.
-/

set_option autoImplicit false

namespace App

/-! ### Data model (§3 of the spec; JSON shapes consumed by `extract_product_info`) -/

/-- One entry of `product.product_overrides` (`src/app.py:133-137`). -/
structure ProductOverride where
  source_id : Option String
deriving DecidableEq

/-- The empty JSON object used for a `None` override entry (`(ov or {})`, `src/app.py:136`). -/
def ProductOverride.empty : ProductOverride := ⟨none⟩

/-- The nested `product` object of a product tag (`src/app.py:132-148`).
`product_overrides` is a list whose entries may themselves be `null`. -/
structure Product where
  id : Option Int
  source_id : Option String
  url : Option String
  original_url : Option String
  product_overrides : Option (List (Option ProductOverride))
deriving DecidableEq

/-- The empty JSON object used when `tag.get("product")` is falsy (`src/app.py:132`). -/
def Product.empty : Product := ⟨none, none, none, none, none⟩

/-- A product association (`tag`) carried by a media record (`src/app.py:131`). -/
structure ProductTag where
  source_id : Option String
  product_id : Option Int
  product : Option Product
deriving DecidableEq

/-- The `original` entry of `image_sizes` (`src/app.py:122-124`). -/
structure OriginalImage where
  url : Option String
deriving DecidableEq

/-- The `image_sizes` object of a media record (`src/app.py:121`). -/
structure ImageSizes where
  original : Option OriginalImage
deriving DecidableEq

/-- A media record returned by the media endpoint (`src/app.py:119-131`). -/
structure Media where
  image_sizes : Option ImageSizes
  products : Option (List ProductTag)
deriving DecidableEq

/-! ### Python truthiness helpers -/

/-- Python truthiness of an optional string: `None` and `""` are falsy. -/
def pyTruthyStr : Option String → Bool
  | none => false
  | some s => s ≠ ""

/-- Python truthiness of an optional integer: `None` and `0` are falsy. -/
def pyTruthyInt : Option Int → Bool
  | none => false
  | some i => i ≠ 0

/-- Python `a or b` on optional integers (`product.get("id") or tag.get("product_id")`,
`src/app.py:145`): yields `b` whenever `a` is falsy (`None` or `0`). -/
def pyOrInt (a b : Option Int) : Option Int :=
  if pyTruthyInt a then a else b

/-! ### Extractor (`extract_product_info`, `src/app.py:99-152`) -/

/-- The match test of the inner loop (`src/app.py:131-143`): the tag's own
`source_id`, the nested product's `source_id`, or any override's `source_id`
equals the target identifier. -/
def tagMatches (product_source_id : String) (tag : ProductTag) : Bool :=
  let product := tag.product.getD Product.empty
  let overrides := product.product_overrides.getD []
  let override_match :=
    overrides.any (fun ov => (ov.getD ProductOverride.empty).source_id == some product_source_id)
  tag.source_id == some product_source_id
    || product.source_id == some product_source_id
    || override_match

/-- The inner `for tag in media.get("products") or []` loop of
`extract_product_info` (`src/app.py:131-149`): scan tags in order; on the
first match, update `dash_id` (if still unset, from `product.id or
tag.product_id`) and `product_url` (if still unset, from `product.url`),
then `break`. -/
def searchTags (product_source_id : String) (dash_id : Option Int) (product_url : Option String) :
    List ProductTag → Option Int × Option String
  | [] => (dash_id, product_url)
  | tag :: rest =>
    let product := tag.product.getD Product.empty
    if tagMatches product_source_id tag then
      (if dash_id.isNone then pyOrInt product.id tag.product_id else dash_id,
       if product_url.isNone then product.url else product_url)
    else
      searchTags product_source_id dash_id product_url rest

/-- One iteration of the outer `for media in media_items` loop
(`src/app.py:119-149`): collect the original image URL if truthy, then —
unless both `dash_id` and `product_url` are already set (`continue`,
`src/app.py:126-128`) — run the tag search. -/
def extractStep (product_source_id : String) :
    Option Int × Option String × List String → Media → Option Int × Option String × List String
  | (dash_id, product_url, media_image_urls), media =>
    let image_sizes := media.image_sizes.getD ⟨none⟩
    let orig := image_sizes.original.getD ⟨none⟩
    let media_image_urls :=
      match orig.url with
      | some u => if u ≠ "" then media_image_urls ++ [u] else media_image_urls
      | none => media_image_urls
    if dash_id.isSome && product_url.isSome then
      (dash_id, product_url, media_image_urls)
    else
      let r := searchTags product_source_id dash_id product_url (media.products.getD [])
      (r.1, r.2, media_image_urls)

/-- `extract_product_info` (`src/app.py:99-152`): returns
`(dash_id, product_url, media_count, media_image_urls)` where
`media_count = len(media_items)`. -/
def extract_product_info (media_items : List Media) (product_source_id : String) :
    Option Int × Option String × Nat × List String :=
  let r := media_items.foldl (extractStep product_source_id) (none, none, [])
  (r.1, r.2.1, media_items.length, r.2.2)

/-- Variant of `extract_product_info` without the early exit at
`src/app.py:126-128`: every record is scanned for matches. Used to state the
refinement claim that the early exit is observationally irrelevant. -/
def extractStepFull (product_source_id : String) :
    Option Int × Option String × List String → Media → Option Int × Option String × List String
  | (dash_id, product_url, media_image_urls), media =>
    let image_sizes := media.image_sizes.getD ⟨none⟩
    let orig := image_sizes.original.getD ⟨none⟩
    let media_image_urls :=
      match orig.url with
      | some u => if u ≠ "" then media_image_urls ++ [u] else media_image_urls
      | none => media_image_urls
    let r := searchTags product_source_id dash_id product_url (media.products.getD [])
    (r.1, r.2, media_image_urls)

/-- The full-scan extractor built on `extractStepFull`. -/
def extract_product_info_full (media_items : List Media) (product_source_id : String) :
    Option Int × Option String × Nat × List String :=
  let r := media_items.foldl (extractStepFull product_source_id) (none, none, [])
  (r.1, r.2.1, media_items.length, r.2.2)

/-- The image URLs collected from a media list in order: each record with a
truthy `image_sizes.original.url` contributes that URL (`src/app.py:120-124`). -/
def collectUrls (media_items : List Media) : List String :=
  media_items.filterMap (fun media =>
    match ((media.image_sizes.getD ⟨none⟩).original.getD ⟨none⟩).url with
    | some u => if u ≠ "" then some u else none
    | none => none)

/-! ### Media fetcher (`fetch_media_for_product_source_id`, `src/app.py:65-96`)

The HTTP call itself is external; the function is embedded as a function of
the transport outcome: `none` models `requests.get` raising, `some r` a
received response whose body has already been run through `r.json()`. -/

/-- Outcome of `r.json()` on a response body: parsing raised (`src/app.py:90-94`),
parsed to a JSON array of media records, or parsed to some non-array value
(`src/app.py:96`). -/
inductive ParsedBody where
  | failure : ParsedBody
  | arrayVal : List Media → ParsedBody
  | otherVal : ParsedBody
deriving DecidableEq

/-- An HTTP response as the fetcher observes it: a status code and the result
of parsing the body. -/
structure HttpResponse where
  status_code : Nat
  body : ParsedBody
deriving DecidableEq

/-- `fetch_media_for_product_source_id` (`src/app.py:65-96`): empty list on
transport error, non-200 status, parse failure, or a non-array body; the
parsed array otherwise. The identifier only parameterizes the request URL and
diagnostics, not the result shape. -/
def fetch_media_for_product_source_id (resp : Option HttpResponse) : List Media :=
  match resp with
  | none => []
  | some r =>
    if r.status_code ≠ 200 then []
    else
      match r.body with
      | ParsedBody.failure => []
      | ParsedBody.arrayVal data => data
      | ParsedBody.otherVal => []

/-! ### Input reader (`read_product_source_ids`, `src/app.py:155-172`)

The input CSV is modelled as its header field names plus, per data row, the
value of the `product_source_id` cell (`none` when the cell is missing). -/

/-- The row loop of `read_product_source_ids` (`src/app.py:168-171`):
`value = (row.get("product_source_id") or "").strip()`, appended to the
result when non-empty, so the kept values appear in row order. Python
`str.strip` is modelled by `String.trim`. -/
def readLoop : List (Option String) → List String
  | [] => []
  | row :: rest =>
    let value := (row.getD "").trim
    if value ≠ "" then value :: readLoop rest else readLoop rest

/-- `read_product_source_ids` (`src/app.py:155-172`): raises `ValueError` when
the `product_source_id` column is absent, otherwise returns the stripped
non-empty values in row order. -/
def read_product_source_ids (fieldnames : List String) (rows : List (Option String)) :
    Except String (List String) :=
  if "product_source_id" ∉ fieldnames then
    Except.error "Input CSV must contain a product_source_id column"
  else
    Except.ok (readLoop rows)

/-! ### Report rows, resume tracker and writer (`src/app.py:175-234`) -/

/-- One row of the output CSV, with the six fields of `append_row`
(`src/app.py:201-208`) already rendered to cell values. -/
structure ReportRow where
  product_id : String
  dash_id : String
  dash_library_link : String
  product_url : String
  media_count : Nat
  media_image_urls : String
deriving DecidableEq

/-- The output CSV as the resume tracker sees it: header field names and the
parsed data rows. -/
structure OutputFile where
  fieldnames : List String
  rows : List ReportRow
deriving DecidableEq

/-- `load_already_processed_rows` (`src/app.py:175-193`): empty set when the
file does not exist (`none`) or its header lacks `product_id`; otherwise the
`product_id` column of every row. Modelled as a list; only membership is used. -/
def load_already_processed_rows (file : Option OutputFile) : List String :=
  match file with
  | none => []
  | some f =>
    if "product_id" ∈ f.fieldnames then f.rows.map ReportRow.product_id
    else []

/-! ### Display link (`build_dash_library_link`, `src/app.py:223-234`) -/

/-- `LIBRARY_BASE_URL` (`src/app.py:20`). -/
def LIBRARY_BASE_URL : String := "https://app.dashhudson.com"

/-- `build_dash_library_link` (`src/app.py:223-234`): empty string when
`not brand_name or not dash_id` (Python truthiness), otherwise the fixed
template populated with both. -/
def build_dash_library_link (brand_name : Option String) (dash_id : Option Int) : String :=
  if !pyTruthyStr brand_name || !pyTruthyInt dash_id then ""
  else
    LIBRARY_BASE_URL ++ "/" ++ brand_name.getD "" ++ "/library/products"
      ++ "?d=product%7CproductId%3A" ++ toString (dash_id.getD 0)

/-! ### Driver (`main`, `src/app.py:237-281`)

The fetch of each identifier is abstracted as a function from identifier to
media list (the composition of the HTTP call with
`fetch_media_for_product_source_id`). The loop body is pure row construction;
`append_row` appends each produced row to the output file in order. -/

/-- The row dictionary built in the loop body of `main` (`src/app.py:260-276`):
fetch, extract, build the link, and render the cells (`dash_id` empty when
`None`, `product_url or ""`, image URLs joined with `"; "`). -/
def makeRow (brand_name : String) (fetch : String → List Media) (product_source_id : String) :
    ReportRow :=
  let e := extract_product_info (fetch product_source_id) product_source_id
  { product_id := product_source_id
    dash_id := match e.1 with
      | some d => toString d
      | none => ""
    dash_library_link := build_dash_library_link (some brand_name) e.1
    product_url := (e.2.1).getD ""
    media_count := e.2.2.1
    media_image_urls := String.intercalate "; " e.2.2.2 }

/-- The identifier loop of `main` (`src/app.py:255-279`): skip identifiers in
the resume set computed once at startup, otherwise build and append a row.
Returns the rows appended, in append order. -/
def processIdentifiers (brand_name : String) (fetch : String → List Media)
    (processed : List String) : List String → List ReportRow
  | [] => []
  | product_source_id :: rest =>
    if product_source_id ∈ processed then
      processIdentifiers brand_name fetch processed rest
    else
      makeRow brand_name fetch product_source_id ::
        processIdentifiers brand_name fetch processed rest

/-- The output file's row list after a run of `main` against a pre-existing
file state: the old rows followed by the appended rows (`append_row` only ever
appends, `src/app.py:196-220`). -/
def runRows (brand_name : String) (fetch : String → List Media) (file : Option OutputFile)
    (ids : List String) : List ReportRow :=
  (match file with
    | none => []
    | some f => f.rows)
    ++ processIdentifiers brand_name fetch (load_already_processed_rows file) ids

/-! ### Spec-side predicates and concrete example inputs -/

/-- The spec's three-way match condition, stated declaratively: the
association's own source id, the nested product's source id, or some override
entry's source id equals the target. -/
def matchSpec (product_source_id : String) (tag : ProductTag) : Prop :=
  tag.source_id = some product_source_id
  ∨ (tag.product.getD Product.empty).source_id = some product_source_id
  ∨ ∃ ov ∈ (tag.product.getD Product.empty).product_overrides.getD [],
      (ov.getD ProductOverride.empty).source_id = some product_source_id

instance (product_source_id : String) (tag : ProductTag) :
    Decidable (matchSpec product_source_id tag) := by
  unfold matchSpec
  infer_instance

/-- Concrete tag whose nested product has `id = 0` (present but Python-falsy)
while the tag's own `product_id` is `7`. -/
def zeroIdTag : ProductTag :=
  { source_id := some "X"
    product_id := some 7
    product := some
      { id := some 0
        source_id := none
        url := some "https://x/p/0"
        original_url := some "https://x/orig/0"
        product_overrides := none } }

/-- A media record carrying `zeroIdTag` and no image. -/
def zeroIdMedia : Media :=
  { image_sizes := none, products := some [zeroIdTag] }

/-- A media record with an original image URL and no product associations. -/
def imageOnlyMedia1 : Media :=
  { image_sizes := some ⟨some ⟨some "https://i/1"⟩⟩, products := none }

/-- A second media record with an original image URL and an association that
matches nothing. -/
def imageOnlyMedia2 : Media :=
  { image_sizes := some ⟨some ⟨some "https://i/2"⟩⟩
    products := some [{ source_id := some "OTHER", product_id := none, product := none }] }

/-- A two-record media list with two image URLs and no association matching
the target identifier `"X"`. -/
def noMatchMediaList : List Media := [imageOnlyMedia1, imageOnlyMedia2]

/-- A pre-existing output file with the standard header and one row for
identifier `"A"`. -/
def existingFile : OutputFile :=
  { fieldnames := ["product_id", "dash_id", "dash_library_link", "product_url",
                   "media_count", "media_image_urls"]
    rows := [{ product_id := "A", dash_id := "", dash_library_link := "",
               product_url := "", media_count := 0, media_image_urls := "" }] }

/-! ### Helper lemmas -/

/-- The boolean match test of the source coincides with the spec's declarative
three-way disjunction. -/
lemma tagMatches_iff (product_source_id : String) (tag : ProductTag) :
    tagMatches product_source_id tag = true ↔ matchSpec product_source_id tag := by
  simp [tagMatches, matchSpec, List.any_eq_true, or_assoc]

/-- The inner tag loop realizes a first-match scan: its result is determined
by `List.find?` over the match test. -/
lemma searchTags_eq_find (product_source_id : String) (dash_id : Option Int)
    (product_url : Option String) (tags : List ProductTag) :
    searchTags product_source_id dash_id product_url tags =
      match tags.find? (tagMatches product_source_id) with
      | none => (dash_id, product_url)
      | some t =>
        (if dash_id.isNone then pyOrInt (t.product.getD Product.empty).id t.product_id
         else dash_id,
         if product_url.isNone then (t.product.getD Product.empty).url else product_url) := by
  induction tags with
  | nil => simp [searchTags, List.find?]
  | cons t rest ih =>
    by_cases h : tagMatches product_source_id t
    · simp [searchTags, List.find?, h]
    · simp only [Bool.not_eq_true] at h
      simp [searchTags, List.find?, h, ih]

/-- Once both fields are set, the tag loop changes nothing. -/
lemma searchTags_of_both_some (product_source_id : String) (dash_id : Option Int)
    (product_url : Option String) (tags : List ProductTag)
    (hd : dash_id.isSome) (hu : product_url.isSome) :
    searchTags product_source_id dash_id product_url tags = (dash_id, product_url) := by
  rw [searchTags_eq_find]
  cases h : tags.find? (tagMatches product_source_id) with
  | none => rfl
  | some t =>
    simp [Option.isNone_iff_eq_none, Option.isSome_iff_ne_none.mp hd,
      Option.isSome_iff_ne_none.mp hu]

/-- If no tag matches, the tag loop changes nothing. -/
lemma searchTags_of_all_false (product_source_id : String) (dash_id : Option Int)
    (product_url : Option String) (tags : List ProductTag)
    (h : ∀ t ∈ tags, tagMatches product_source_id t = false) :
    searchTags product_source_id dash_id product_url tags = (dash_id, product_url) := by
  rw [searchTags_eq_find]
  rw [List.find?_eq_none.mpr]
  intro t ht
  simp [h t ht]

/-- When no record's tags match, the extraction fold leaves the id and URL
unset and only accumulates image URLs. -/
lemma foldl_extractStep_of_no_match (product_source_id : String) (ms : List Media)
    (h : ∀ m ∈ ms, ∀ t ∈ m.products.getD [], tagMatches product_source_id t = false) :
    ∀ acc : List String,
      ms.foldl (extractStep product_source_id) (none, none, acc) =
        (none, none, acc ++ collectUrls ms) := by
  induction ms with
  | nil => intro acc; simp [collectUrls]
  | cons m tl ih =>
    intro acc
    have hm : ∀ t ∈ m.products.getD [], tagMatches product_source_id t = false :=
      h m (by simp)
    have htl : ∀ m' ∈ tl, ∀ t ∈ m'.products.getD [], tagMatches product_source_id t = false :=
      fun m' hm' => h m' (by simp [hm'])
    have hstep : extractStep product_source_id (none, none, acc) m =
        (none, none, acc ++ (collectUrls [m])) := by
      simp only [extractStep, Option.isSome_none, Bool.false_and, if_neg Bool.false_ne_true,
        searchTags_of_all_false product_source_id none none _ hm, collectUrls,
        List.filterMap_cons, List.filterMap_nil]
      cases hurl : ((m.image_sizes.getD ⟨none⟩).original.getD ⟨none⟩).url with
      | none => simp
      | some u =>
        by_cases hu : u = ""
        · simp [hu]
        · simp [hu]
    rw [List.foldl_cons, hstep, ih htl]
    have hsplit : collectUrls (m :: tl) = collectUrls [m] ++ collectUrls tl := by
      simp only [collectUrls, List.filterMap_cons, List.filterMap_nil]
      cases ((m.image_sizes.getD ⟨none⟩).original.getD ⟨none⟩).url with
      | none => simp
      | some u =>
        by_cases hu : u = ""
        · simp [hu]
        · simp [hu]
    rw [hsplit, List.append_assoc]

/-- The early-exit step and the full-scan step agree on every state. -/
lemma extractStep_eq_full (product_source_id : String)
    (st : Option Int × Option String × List String) (m : Media) :
    extractStep product_source_id st m = extractStepFull product_source_id st m := by
  obtain ⟨dash_id, product_url, urls⟩ := st
  simp only [extractStep, extractStepFull]
  by_cases hd : dash_id.isSome
  · by_cases hu : product_url.isSome
    · simp [hd, hu, searchTags_of_both_some product_source_id dash_id product_url _ hd hu]
    · simp [hu]
  · simp [hd]

/-- The reader's row loop is the filterMap of trimming and dropping empties. -/
lemma readLoop_eq_filterMap (rows : List (Option String)) :
    readLoop rows =
      rows.filterMap (fun row =>
        if (row.getD "").trim = "" then none else some (row.getD "").trim) := by
  induction rows with
  | nil => rfl
  | cons r tl ih =>
    by_cases hr : (r.getD "").trim = ""
    · simp [readLoop, List.filterMap_cons, hr, ih]
    · simp [readLoop, List.filterMap_cons, hr, ih]

/-- Every appended row's identifier comes from the input list and is outside
the resume set. -/
lemma mem_processIdentifiers (brand_name : String) (fetch : String → List Media)
    (processed : List String) (ids : List String) (r : ReportRow)
    (hr : r ∈ processIdentifiers brand_name fetch processed ids) :
    r.product_id ∈ ids ∧ r.product_id ∉ processed := by
  induction ids with
  | nil => simp [processIdentifiers] at hr
  | cons psid rest ih =>
    by_cases hp : psid ∈ processed
    · rw [processIdentifiers, if_pos hp] at hr
      obtain ⟨h1, h2⟩ := ih hr
      exact ⟨by simp [h1], h2⟩
    · rw [processIdentifiers, if_neg hp] at hr
      rcases List.mem_cons.mp hr with h | h
      · subst h
        exact ⟨by simp [makeRow], by simpa [makeRow] using hp⟩
      · obtain ⟨h1, h2⟩ := ih h
        exact ⟨by simp [h1], h2⟩

/-- No appended row carries an identifier missing from the input list. -/
lemma processIdentifiers_filter_of_not_mem (brand_name : String)
    (fetch : String → List Media) (processed : List String) (ids : List String)
    (x : String) (hx : x ∉ ids) :
    (processIdentifiers brand_name fetch processed ids).filter
        (fun r => r.product_id == x) = [] := by
  induction ids with
  | nil => simp [processIdentifiers]
  | cons psid rest ih =>
    have hx1 : psid ≠ x := fun h => hx (by simp [h])
    have hx2 : x ∉ rest := fun h => hx (by simp [h])
    by_cases hp : psid ∈ processed
    · rw [processIdentifiers, if_pos hp]
      exact ih hx2
    · rw [processIdentifiers, if_neg hp]
      rw [List.filter_cons]
      have hbeq : ((makeRow brand_name fetch psid).product_id == x) = false := by
        simp [makeRow, hx1]
      rw [hbeq, if_neg Bool.false_ne_true]
      exact ih hx2

/-- With duplicate-free input, at most one appended row carries any given
identifier. -/
lemma processIdentifiers_count_le_one (brand_name : String)
    (fetch : String → List Media) (processed : List String) (ids : List String)
    (hnodup : ids.Nodup) (x : String) :
    ((processIdentifiers brand_name fetch processed ids).filter
        (fun r => r.product_id == x)).length ≤ 1 := by
  induction ids with
  | nil => simp [processIdentifiers]
  | cons psid rest ih =>
    have hmem : psid ∉ rest := (List.nodup_cons.mp hnodup).1
    have hrest : rest.Nodup := (List.nodup_cons.mp hnodup).2
    by_cases hp : psid ∈ processed
    · rw [processIdentifiers, if_pos hp]
      exact ih hrest
    · rw [processIdentifiers, if_neg hp]
      rw [List.filter_cons]
      by_cases hx : psid = x
      · subst hx
        have hxr : psid ∉ rest := hmem
        rw [processIdentifiers_filter_of_not_mem brand_name fetch processed rest psid hxr]
        simp [makeRow]
      · have hbeq : ((makeRow brand_name fetch psid).product_id == x) = false := by
          simp [makeRow, hx]
        rw [hbeq, if_neg Bool.false_ne_true]
        exact ih hrest

/-- When every input identifier is in the resume set, the loop appends
nothing. -/
lemma processIdentifiers_all_skip (brand_name : String) (fetch : String → List Media)
    (processed : List String) (ids : List String)
    (h : ∀ id ∈ ids, id ∈ processed) :
    processIdentifiers brand_name fetch processed ids = [] := by
  induction ids with
  | nil => rfl
  | cons psid rest ih =>
    rw [processIdentifiers, if_pos (h psid (by simp))]
    exact ih fun id hid => h id (by simp [hid])

/-! ### Claim theorems -/

/-- Claim C2: in the extractor, a record's association matches the target
exactly when the three-way disjunction holds (own source id, nested product's
source id, or some override's source id equals the target); the record is a
match exactly when some association matches; associations are scanned in list
order so the first matching association determines the extracted values for
that record. -/
theorem extractor_match_rule (product_source_id : String) (tag : ProductTag)
    (dash_id : Option Int) (product_url : Option String) (tags : List ProductTag) :
    (tagMatches product_source_id tag = true ↔ matchSpec product_source_id tag)
    ∧ ((tags.find? (tagMatches product_source_id)).isSome
        ↔ ∃ t ∈ tags, matchSpec product_source_id t)
    ∧ searchTags product_source_id dash_id product_url tags =
        (match tags.find? (tagMatches product_source_id) with
         | none => (dash_id, product_url)
         | some t =>
           (if dash_id.isNone then pyOrInt (t.product.getD Product.empty).id t.product_id
            else dash_id,
            if product_url.isNone then (t.product.getD Product.empty).url else product_url)) := by
  refine ⟨tagMatches_iff product_source_id tag, ?_, searchTags_eq_find _ _ _ _⟩
  rw [List.find?_isSome]
  constructor
  · rintro ⟨t, ht, hmatch⟩
    exact ⟨t, ht, (tagMatches_iff product_source_id t).mp hmatch⟩
  · rintro ⟨t, ht, hmatch⟩
    exact ⟨t, ht, (tagMatches_iff product_source_id t).mpr hmatch⟩

/-- Claim C4: the media count returned by the extractor is the total number
of records in the input list, whatever matched. -/
theorem media_count_eq_length (media_items : List Media) (product_source_id : String) :
    (extract_product_info media_items product_source_id).2.2.1 = media_items.length := rfl

/-- Claim C6: the extractor with the early exit returns exactly what the
full-scan variant (no early exit) returns, on every media list and target. -/
theorem early_exit_equiv (media_items : List Media) (product_source_id : String) :
    extract_product_info media_items product_source_id =
      extract_product_info_full media_items product_source_id := by
  have h : extractStep product_source_id = extractStepFull product_source_id :=
    funext fun st => funext fun m => extractStep_eq_full product_source_id st m
  unfold extract_product_info extract_product_info_full
  rw [h]

/-- Claim C5: with no record matching the target, the extractor returns
absent internal id and URL but still all image URLs, collected in list
order, together with the full record count. -/
theorem no_match_extraction (media_items : List Media) (product_source_id : String)
    (h : ∀ m ∈ media_items, ∀ t ∈ m.products.getD [], ¬ matchSpec product_source_id t) :
    extract_product_info media_items product_source_id =
      (none, none, media_items.length, collectUrls media_items) := by
  have h' : ∀ m ∈ media_items, ∀ t ∈ m.products.getD [],
      tagMatches product_source_id t = false := fun m hm t ht =>
    Bool.eq_false_iff.mpr fun htrue =>
      h m hm t ht ((tagMatches_iff product_source_id t).mp htrue)
  unfold extract_product_info
  rw [foldl_extractStep_of_no_match product_source_id media_items h' []]
  simp

/-- Claim C5 witness: a two-record list with two image URLs and no match for
`"X"` extracts to `(none, none, 2, [the two urls])`. -/
theorem no_match_extraction_witness :
    extract_product_info noMatchMediaList "X" =
      (none, none, noMatchMediaList.length, collectUrls noMatchMediaList)
    ∧ extract_product_info noMatchMediaList "X" =
        (none, none, 2, ["https://i/1", "https://i/2"]) :=
  ⟨no_match_extraction noMatchMediaList "X" (by decide), by decide⟩

/-- Claim C7: the media fetcher returns the empty record list on transport
error, non-200 status, an unparseable body, or a parseable non-array body;
a 200 response whose body parses to an array is returned unchanged. -/
theorem fetch_media_failure_cases (r : HttpResponse) (xs : List Media) :
    fetch_media_for_product_source_id none = []
    ∧ (r.status_code ≠ 200 → fetch_media_for_product_source_id (some r) = [])
    ∧ (r.body = ParsedBody.failure → fetch_media_for_product_source_id (some r) = [])
    ∧ (r.body = ParsedBody.otherVal → fetch_media_for_product_source_id (some r) = [])
    ∧ (r.status_code = 200 → r.body = ParsedBody.arrayVal xs →
        fetch_media_for_product_source_id (some r) = xs) := by
  obtain ⟨s, b⟩ := r
  refine ⟨rfl, ?_, ?_, ?_, ?_⟩
  · intro h
    simp [fetch_media_for_product_source_id, h]
  · intro h
    subst h
    by_cases hs : s = 200 <;> simp [fetch_media_for_product_source_id, hs]
  · intro h
    subst h
    by_cases hs : s = 200 <;> simp [fetch_media_for_product_source_id, hs]
  · intro h1 h2
    subst h2
    change s = 200 at h1
    subst h1
    simp [fetch_media_for_product_source_id]

/-- Claim C7 witness: a 200 response parsing to a concrete array is returned
unchanged. -/
theorem fetch_media_failure_cases_witness :
    fetch_media_for_product_source_id
        (some ⟨200, ParsedBody.arrayVal [imageOnlyMedia1]⟩) = [imageOnlyMedia1] :=
  (fetch_media_failure_cases ⟨200, ParsedBody.arrayVal [imageOnlyMedia1]⟩
    [imageOnlyMedia1]).2.2.2.2 rfl rfl

/-- Claim C3 counterexample: the dash id falls back to the tag's own
`product_id` even though the nested product's `id` is present — because `0`
is Python-falsy in `product.get("id") or tag.get("product_id")`.
A matching record whose product has `id = 0` and whose tag has
`product_id = 7` extracts dash id `7`, not `0`, refuting the claim's
"falling back if and only if the product's id is absent". -/
theorem dash_id_fallback_counterexample :
    (zeroIdTag.product.getD Product.empty).id = some 0
    ∧ zeroIdTag.product_id = some 7
    ∧ (extract_product_info [zeroIdMedia] "X").1 = some 7
    ∧ (extract_product_info [zeroIdMedia] "X").1 ≠ some 0 := by decide

/-- Claim C3 (amended): on the first matching association with the internal
id not yet set, the dash id is `product.id or tag.product_id` in Python's
truthy sense — the nested product's id when it is present and non-zero,
the tag's own `product_id` when the product's id is absent or zero — and
the canonical URL is the nested product's `url` field. -/
theorem dash_id_fallback_amended (product_source_id : String) (tag : ProductTag)
    (rest : List ProductTag) (h : tagMatches product_source_id tag = true) :
    searchTags product_source_id none none (tag :: rest) =
      (pyOrInt (tag.product.getD Product.empty).id tag.product_id,
       (tag.product.getD Product.empty).url)
    ∧ (∀ v : Int, (tag.product.getD Product.empty).id = some v → v ≠ 0 →
        pyOrInt (tag.product.getD Product.empty).id tag.product_id = some v)
    ∧ ((tag.product.getD Product.empty).id = none →
        pyOrInt (tag.product.getD Product.empty).id tag.product_id = tag.product_id)
    ∧ ((tag.product.getD Product.empty).id = some 0 →
        pyOrInt (tag.product.getD Product.empty).id tag.product_id = tag.product_id) := by
  refine ⟨?_, ?_, ?_, ?_⟩
  · simp [searchTags, h]
  · intro v hv h0
    simp [pyOrInt, pyTruthyInt, hv, h0]
  · intro hv
    simp [pyOrInt, pyTruthyInt, hv]
  · intro hv
    simp [pyOrInt, pyTruthyInt, hv]

/-- Claim C3 witness: the amended rule evaluated on the concrete matching
tag with product id `0` and tag product id `7`. -/
theorem dash_id_fallback_amended_witness :
    searchTags "X" none none [zeroIdTag] =
      (pyOrInt (zeroIdTag.product.getD Product.empty).id zeroIdTag.product_id,
       (zeroIdTag.product.getD Product.empty).url)
    ∧ (∀ v : Int, (zeroIdTag.product.getD Product.empty).id = some v → v ≠ 0 →
        pyOrInt (zeroIdTag.product.getD Product.empty).id zeroIdTag.product_id = some v)
    ∧ ((zeroIdTag.product.getD Product.empty).id = none →
        pyOrInt (zeroIdTag.product.getD Product.empty).id zeroIdTag.product_id =
          zeroIdTag.product_id)
    ∧ ((zeroIdTag.product.getD Product.empty).id = some 0 →
        pyOrInt (zeroIdTag.product.getD Product.empty).id zeroIdTag.product_id =
          zeroIdTag.product_id) :=
  dash_id_fallback_amended "X" zeroIdTag [] (by decide)

/-- Claim C8 counterexample: with account name `"acme"` and internal id `0`
— both present — the display link is the empty string, not the populated
template, because `0` is Python-falsy in `if not brand_name or not dash_id`.
This refutes "populated exactly when both are present". -/
theorem build_link_counterexample :
    build_dash_library_link (some "acme") (some 0) = ""
    ∧ build_dash_library_link (some "acme") (some 0) ≠
        LIBRARY_BASE_URL ++ "/" ++ "acme" ++ "/library/products"
          ++ "?d=product%7CproductId%3A" ++ toString (0 : Int) := by decide

/-- Claim C8 (amended): the display link is the fixed template populated with
the account name and internal id exactly when both are present and truthy
(name non-empty, id non-zero); it is the empty string when either is absent,
the name is empty, or the id is zero. -/
theorem build_link_amended :
    (∀ (n : String) (i : Int), n ≠ "" → i ≠ 0 →
      build_dash_library_link (some n) (some i) =
        LIBRARY_BASE_URL ++ "/" ++ n ++ "/library/products"
          ++ "?d=product%7CproductId%3A" ++ toString i)
    ∧ (∀ d : Option Int, build_dash_library_link none d = "")
    ∧ (∀ b : Option String, build_dash_library_link b none = "")
    ∧ (∀ i : Int, build_dash_library_link (some "") (some i) = "")
    ∧ (∀ n : String, build_dash_library_link (some n) (some 0) = "") := by
  refine ⟨?_, ?_, ?_, ?_, ?_⟩
  · intro n i hn hi
    simp [build_dash_library_link, pyTruthyStr, pyTruthyInt, hn, hi]
  · intro d
    simp [build_dash_library_link, pyTruthyStr]
  · intro b
    simp [build_dash_library_link, pyTruthyInt]
  · intro i
    simp [build_dash_library_link, pyTruthyStr]
  · intro n
    simp [build_dash_library_link, pyTruthyInt]

/-- Claim C8 witness: account name `"acme"` with internal id `42` yields the
populated template. -/
theorem build_link_amended_witness :
    build_dash_library_link (some "acme") (some 42) =
      LIBRARY_BASE_URL ++ "/" ++ "acme" ++ "/library/products"
        ++ "?d=product%7CproductId%3A" ++ toString (42 : Int) :=
  build_link_amended.1 "acme" 42 (by decide) (by decide)

/-- Claim C10: given the required `product_source_id` column, the reader
returns each row's value with surrounding whitespace stripped, in row order,
omitting rows whose value is missing or trims to the empty string; every
returned value is non-empty and is the trim of some row's value. -/
theorem reader_strips_and_filters (fieldnames : List String) (rows : List (Option String))
    (h : "product_source_id" ∈ fieldnames) :
    read_product_source_ids fieldnames rows =
      Except.ok (rows.filterMap (fun row =>
        if (row.getD "").trim = "" then none else some (row.getD "").trim))
    ∧ ∀ s ∈ readLoop rows, s ≠ "" ∧ ∃ row ∈ rows, (row.getD "").trim = s := by
  constructor
  · rw [read_product_source_ids, if_neg (by simp [h]), readLoop_eq_filterMap]
  · intro s hs
    rw [readLoop_eq_filterMap] at hs
    simp only [List.mem_filterMap] at hs
    obtain ⟨row, hrow, hmap⟩ := hs
    by_cases hr : (row.getD "").trim = ""
    · rw [if_pos hr] at hmap
      exact absurd hmap (by simp)
    · rw [if_neg hr] at hmap
      obtain rfl := Option.some.inj hmap
      exact ⟨hr, row, hrow, rfl⟩

/-- Claim C10 witness: a concrete input with a padded value, a whitespace-only
value and a missing cell keeps exactly the stripped non-empty values. -/
theorem reader_strips_and_filters_witness :
    read_product_source_ids ["product_source_id", "other"]
        [some "  a  ", some "   ", none, some "b"] =
      Except.ok ([some "  a  ", some "   ", none, some "b"].filterMap (fun row =>
        if (row.getD "").trim = "" then none else some (row.getD "").trim))
    ∧ ∀ s ∈ readLoop [some "  a  ", some "   ", none, some "b"],
        s ≠ "" ∧ ∃ row ∈ [some "  a  ", some "   ", none, some "b"],
          (row.getD "").trim = s :=
  reader_strips_and_filters ["product_source_id", "other"]
    [some "  a  ", some "   ", none, some "b"] (by decide)

/-- Claim C9: rerunning the driver when every input identifier is already in
the resume set computed from the pre-existing output file appends no rows,
leaving the file's row list unchanged. -/
theorem rerun_appends_nothing (brand_name : String) (fetch : String → List Media)
    (f : OutputFile) (ids : List String)
    (h : ∀ id ∈ ids, id ∈ load_already_processed_rows (some f)) :
    processIdentifiers brand_name fetch (load_already_processed_rows (some f)) ids = []
    ∧ runRows brand_name fetch (some f) ids = f.rows := by
  have hskip := processIdentifiers_all_skip brand_name fetch
    (load_already_processed_rows (some f)) ids h
  exact ⟨hskip, by simp [runRows, hskip]⟩

/-- Claim C9 witness: a file already holding a row for `"A"` and input
`["A"]` yields no appended rows. -/
theorem rerun_appends_nothing_witness :
    processIdentifiers "b" (fun _ => [])
        (load_already_processed_rows (some existingFile)) ["A"] = []
    ∧ runRows "b" (fun _ => []) (some existingFile) ["A"] = existingFile.rows :=
  rerun_appends_nothing "b" (fun _ => []) existingFile ["A"] (by decide)

/-- Claim C1 counterexample: with an input file listing identifier `"A"`
twice and no pre-existing output file, a single run appends two rows for
`"A"` — the resume set is computed once at startup and is not updated while
the loop runs, so a duplicated input identifier defeats the claimed
"at most one report row per input identifier". -/
theorem duplicate_input_counterexample :
    ((processIdentifiers "b" (fun _ => []) (load_already_processed_rows none)
        ["A", "A"]).filter (fun r => r.product_id == "A")).length = 2 := by decide

/-- Claim C1 (amended): provided the input identifiers are pairwise distinct
and the pre-existing output file's header carries the `product_id` column,
the driver appends no row for an identifier that already has a row in the
file, and appends at most one row per identifier. -/
theorem at_most_one_row_amended (brand_name : String) (fetch : String → List Media)
    (f : OutputFile) (ids : List String) (hnodup : ids.Nodup)
    (hdr : "product_id" ∈ f.fieldnames) :
    (∀ r ∈ processIdentifiers brand_name fetch
        (load_already_processed_rows (some f)) ids,
      r.product_id ∉ f.rows.map ReportRow.product_id)
    ∧ ∀ x : String,
        ((processIdentifiers brand_name fetch
            (load_already_processed_rows (some f)) ids).filter
          (fun r => r.product_id == x)).length ≤ 1 := by
  constructor
  · intro r hr
    have h2 := (mem_processIdentifiers brand_name fetch
      (load_already_processed_rows (some f)) ids r hr).2
    simpa [load_already_processed_rows, hdr] using h2
  · intro x
    exact processIdentifiers_count_le_one brand_name fetch
      (load_already_processed_rows (some f)) ids hnodup x

/-- Claim C1 witness: distinct inputs `["A", "B"]` against a file already
holding a row for `"A"`: no appended row repeats a file identifier and no
identifier gets two appended rows. -/
theorem at_most_one_row_amended_witness :
    (∀ r ∈ processIdentifiers "b" (fun _ => [])
        (load_already_processed_rows (some existingFile)) ["A", "B"],
      r.product_id ∉ existingFile.rows.map ReportRow.product_id)
    ∧ ∀ x : String,
        ((processIdentifiers "b" (fun _ => [])
            (load_already_processed_rows (some existingFile)) ["A", "B"]).filter
          (fun r => r.product_id == x)).length ≤ 1 :=
  at_most_one_row_amended "b" (fun _ => []) existingFile ["A", "B"] (by decide) (by decide)

end App
